import Mathlib

/-!
Verification development for the distributed bootstrap and rank-coordination
core of the repository (ab/gpt/dist/DistEnv.py, ab/gpt/infer/DPGenerator.py,
ab/gpt/util/DeepSpeedManager.py), as a shallow embedding in Lean 4.

External effects (environment variables, the torch.distributed collectives,
file-system writes) are made explicit: the environment is a record of
optional variables, collectives are parameters carrying the value a rank
receives, and I/O appears as events in a trace, with failure points of the
external calls supplied as explicit oracles.
-/

namespace NNGpt

/-! ## Definitions: DistEnv (ab/gpt/dist/DistEnv.py) -/

/-- Launch environment variables consumed for identity resolution and
rendezvous (`os.environ` restricted to the keys DistEnv reads and writes).
`none` models an absent variable. The three identity signals are modelled
as the natural numbers a launcher would set them to. -/
structure Env where
  RANK : Option Nat
  LOCAL_RANK : Option Nat
  WORLD_SIZE : Option Nat
  MASTER_ADDR : Option String
  MASTER_PORT : Option String
deriving Repr, DecidableEq

/-- Process-wide singleton state held by the `DistEnv` class: its class
attributes `_inited`, `_rank`, `_local_rank`, `_world_size`, together with
the state of the external collective backend (`dist.is_initialized()`) and
the seed last applied to the random number generators by
`torch.manual_seed` / `torch.cuda.manual_seed_all` (`none` when no seed has
ever been applied). -/
structure DistEnvState where
  inited : Bool
  rank : Nat
  local_rank : Nat
  world_size : Nat
  groupInitialized : Bool
  appliedSeed : Option Int
deriving Repr, DecidableEq

/-- State of a process that has just started: `DistEnv._inited = False`,
`_rank = 0`, `_local_rank = 0`, `_world_size = 1`, no process group, no
seed applied yet. -/
def freshState : DistEnvState :=
  { inited := false, rank := 0, local_rank := 0, world_size := 1,
    groupInitialized := false, appliedSeed := none }

/-- Value actually handed to `torch.manual_seed` and
`torch.cuda.manual_seed_all` by `DistEnv.set_seed(seed)`:
`rs = int(seed) + DistEnv.rank()`. -/
def set_seed (seed : Int) (rank : Nat) : Int :=
  seed + (rank : Int)

/-- Wall-clock-derived base seed picked on a rank when the caller supplies
no seed: `int(time.time()) & 0x7FFFFFFF`. -/
def baseOf (time0 : Nat) : Nat :=
  time0 &&& 0x7FFFFFFF

/-- Identity resolution performed at the top of `DistEnv.init`:
`int(os.environ.get("RANK", "0"))`, `int(os.environ.get("LOCAL_RANK", "0"))`,
`int(os.environ.get("WORLD_SIZE", "1"))` — absent signals default to
0, 0 and 1 and never raise. -/
structure ProcessIdentity where
  rank : Nat
  local_rank : Nat
  world_size : Nat
deriving Repr, DecidableEq

/-- Resolution of the three identity signals with their defaults, exactly
as read by `DistEnv.init` (lines 56-58 of DistEnv.py). -/
def resolveIdentity (env : Env) : ProcessIdentity :=
  { rank := env.RANK.getD 0, local_rank := env.LOCAL_RANK.getD 0,
    world_size := env.WORLD_SIZE.getD 1 }

/-- Consistency of externally supplied identity signals: the launcher
assigned this process a rank below the announced world size (after the
defaulting the code applies to partially absent signals). -/
abbrev consistentSignals (env : Env) : Prop :=
  env.RANK.getD 0 < env.WORLD_SIZE.getD 1

/-- Transcription of `DistEnv.init(backend, timeout_s, seed)` as a state
transformer.

Explicit inputs standing for the externals it consults:
* `env`: the launch environment;
* `time0`: the wall clock read by `time.time()` on this rank;
* `bcastRecv`: the value the length-1 buffer of this rank holds after
  `dist.broadcast(t, src=0)`, i.e. the base seed of rank 0.

The transcription follows the source line by line: early return when
`_inited`; identity resolution with defaults `0 / 0 / 1`; group formation
when `world_size > 1` and no group exists yet; base-seed pick and broadcast
when `seed is None` (falling back to the local base when no group exists);
`set_seed`; `_inited = True`. CUDA device binding and the
`MASTER_ADDR`/`MASTER_PORT` setdefaults touch no field of this state. -/
def DistEnv.init (s : DistEnvState) (env : Env) (time0 : Nat)
    (bcastRecv : Int) (seed : Option Int) : DistEnvState :=
  if s.inited then s
  else
    let rank := env.RANK.getD 0
    let local_rank := env.LOCAL_RANK.getD 0
    let world_size := env.WORLD_SIZE.getD 1
    let groupInit := s.groupInitialized || decide (world_size > 1)
    let seedVal : Int :=
      match seed with
      | some sd => sd
      | none => if groupInit then bcastRecv else (baseOf time0 : Int)
    { inited := true, rank := rank, local_rank := local_rank,
      world_size := world_size, groupInitialized := groupInit,
      appliedSeed := some (set_seed seedVal rank) }

/-- Events emitted by `DistEnv.destroy`. -/
inductive DestroyEvent where
  | barrierAttempt
  | barrierFailureSwallowed
  | groupDestroyed
deriving Repr, DecidableEq

/-- Transcription of `DistEnv.destroy()`: when a process group exists, try
a barrier (`except Exception: pass` — a failure, modelled by the
`barrierFails` oracle, is swallowed), then `dist.destroy_process_group()`;
in every case finish with `DistEnv._inited = False`. Returns the new state
together with the trace of teardown events. -/
def DistEnv.destroy (s : DistEnvState) (barrierFails : Bool) :
    DistEnvState × List DestroyEvent :=
  if s.groupInitialized then
    let barrierEvents :=
      if barrierFails then
        [DestroyEvent.barrierAttempt, DestroyEvent.barrierFailureSwallowed]
      else
        [DestroyEvent.barrierAttempt]
    ({ s with groupInitialized := false, inited := false },
      barrierEvents ++ [DestroyEvent.groupDestroyed])
  else
    ({ s with inited := false }, [])

/-- Launch environment of the externally launched rank `r` in a job of `N`
ranks on one node (the form torchrun/deepspeed set up). -/
def envFor (r N : Nat) : Env :=
  { RANK := some r, LOCAL_RANK := some r, WORLD_SIZE := some N,
    MASTER_ADDR := none, MASTER_PORT := none }

/-- State of rank `r` after `DistEnv.init` with no caller-supplied seed in
an `N`-rank job, where `times` gives the wall clock each rank reads and the
broadcast delivers the base seed rank 0 derived from its own clock
(`dist.broadcast(t, src=0)`). -/
def rankStateAfterInit (N r : Nat) (times : Nat → Nat) : DistEnvState :=
  DistEnv.init freshState (envFor r N) (times r) ((baseOf (times 0) : Nat) : Int) none

/-- Launch environment of the C8 scenario: a single-process run
(`world_size = 1`, rank 0). -/
def envSingle : Env :=
  { RANK := some 0, LOCAL_RANK := some 0, WORLD_SIZE := some 1,
    MASTER_ADDR := none, MASTER_PORT := none }

/-- Result of `DistEnv.spawn_if_needed`: either the entry function is
invoked directly in this process (external launcher detected), or
`mp.spawn` creates worker processes, each receiving a local rank index and
a mutated copy of the environment. -/
inductive SpawnResult where
  | direct (localRank : Nat)
  | spawned (workers : List (Nat × Env))
deriving Repr, DecidableEq

/-- Environment mutations performed by `_spawn_entry` in each spawned
worker before it invokes the entry function:
`MASTER_ADDR`/`MASTER_PORT` setdefault to the loopback endpoint
`127.0.0.1:29500`, and `LOCAL_RANK`, `RANK`, `WORLD_SIZE` are assigned the
spawned-process index and the process count. -/
def spawn_entry_env (parent : Env) (local_rank nprocs : Nat) : Env :=
  { RANK := some local_rank, LOCAL_RANK := some local_rank,
    WORLD_SIZE := some nprocs,
    MASTER_ADDR := some (parent.MASTER_ADDR.getD "127.0.0.1"),
    MASTER_PORT := some (parent.MASTER_PORT.getD "29500") }

/-- Transcription of `DistEnv.spawn_if_needed(entry_fn, *args, nprocs)`:
if any of `RANK`, `WORLD_SIZE`, `LOCAL_RANK` is present in the environment
the entry function runs directly with `LOCAL_RANK` (default 0); otherwise
the process count defaults to `torch.cuda.device_count() or 1`
(`cudaDeviceCount` here) and `mp.spawn` runs `_spawn_entry` for every
index below the process count. -/
def spawn_if_needed (env : Env) (nprocs : Option Nat) (cudaDeviceCount : Nat) :
    SpawnResult :=
  if env.RANK.isSome || env.WORLD_SIZE.isSome || env.LOCAL_RANK.isSome then
    SpawnResult.direct (env.LOCAL_RANK.getD 0)
  else
    let n := nprocs.getD (if cudaDeviceCount = 0 then 1 else cudaDeviceCount)
    SpawnResult.spawned ((List.range n).map fun i => (i, spawn_entry_env env i n))

/-! ## Definitions: DPGenerator worker loop (ab/gpt/infer/DPGenerator.py) -/

/-- Outcome oracle for one task of the per-task generation loop of
`DPGenerator._worker`, fixing the results of the external calls the loop
makes for that task: whether `extract_code` returns a non-empty string,
whether `extract_hyperparam` returns a non-empty string, whether the
unguarded `create_file(model_dir, new_out_file, full_out)` raw-output write
raises, and whether any step of the guarded persistence block
(`json.loads`, `mkdir`, `json.dump`, `create_file`, `to_pickle`) raises. -/
structure TaskOutcome where
  codeParsed : Bool
  hpParsed : Bool
  saveOutFails : Bool
  persistFails : Bool
deriving Repr, DecidableEq

/-- Kind of an observable step of the per-task loop of
`DPGenerator._worker`. -/
inductive GenKind where
  | generate
  | decode
  | parseAttempt
  | warnParseSkip
  | rawOutputSaved
  | artifactPersisted
  | warnPersistSkip
deriving Repr, DecidableEq

/-- Observable step of the loop tagged with the task index it belongs to
(artifact naming is positional: one directory per index). -/
structure GenEvent where
  kind : GenKind
  idx : Nat
deriving Repr, DecidableEq

/-- Tail of the designated-rank persistence phase: the try block around
`json.loads` / `mkdir` / `json.dump` / `create_file` / `to_pickle` catches
any exception (`except Exception as e: print(...); continue`), so a failing
persistence step yields a logged warning and no persisted artifact, and a
succeeding one yields the persisted artifact. -/
def persistTail (idx : Nat) (o : TaskOutcome) : List GenEvent :=
  if o.persistFails then [⟨GenKind.warnPersistSkip, idx⟩]
  else [⟨GenKind.artifactPersisted, idx⟩]

/-- Processing of one task at index `idx` by the rank whose
`DistEnv.is_main()` is `m`, with `save_llm_output = s`, transcribed from
the loop body of `DPGenerator._worker`:
every rank calls `model.generate` on identical inputs; only the main rank
decodes, parses, and persists; a parse failure (missing code or missing
hyperparameters) logs a warning and skips the task before any file is
written; the raw-output write performed when `save_llm_output` is enabled
sits before the try block, so its failure propagates as an error; failures
inside the try block are swallowed per task. -/
def processTask (m s : Bool) (idx : Nat) (o : TaskOutcome) :
    Except String (List GenEvent) :=
  let gen : List GenEvent := [⟨GenKind.generate, idx⟩]
  if m = false then Except.ok gen
  else
    let decoded := gen ++ [⟨GenKind.decode, idx⟩, ⟨GenKind.parseAttempt, idx⟩]
    if (o.codeParsed && o.hpParsed) = false then
      Except.ok (decoded ++ [⟨GenKind.warnParseSkip, idx⟩])
    else if s then
      if o.saveOutFails then
        Except.error "uncaught exception while writing raw LLM output"
      else
        Except.ok (decoded ++ [⟨GenKind.rawOutputSaved, idx⟩] ++ persistTail idx o)
    else
      Except.ok (decoded ++ persistTail idx o)

/-- Sequential execution of the per-task loop from index `idx` over the
remaining task outcomes: an error in one task body aborts the loop (the
only error source is the unguarded raw-output write), otherwise the traces
concatenate in task order. -/
def runTasks (m s : Bool) : Nat → List TaskOutcome → Except String (List GenEvent)
  | _, [] => Except.ok []
  | idx, o :: rest =>
    match processTask m s idx o with
    | Except.error e => Except.error e
    | Except.ok evs =>
      match runTasks m s (idx + 1) rest with
      | Except.error e => Except.error e
      | Except.ok evsRest => Except.ok (evs ++ evsRest)

/-- Whole per-task generation loop of `DPGenerator._worker` (task indices
start at 0, `enumerate(prompts)`). -/
def workerLoop (m s : Bool) (outcomes : List TaskOutcome) :
    Except String (List GenEvent) :=
  runTasks m s 0 outcomes

/-- Kinds of the events one task contributes to the trace when its body
completes without an uncaught exception (computed form of the `Except.ok`
branches of `processTask`). -/
def taskKinds (m s : Bool) (o : TaskOutcome) : List GenKind :=
  if m = false then [GenKind.generate]
  else if (o.codeParsed && o.hpParsed) = false then
    [GenKind.generate, GenKind.decode, GenKind.parseAttempt, GenKind.warnParseSkip]
  else
    [GenKind.generate, GenKind.decode, GenKind.parseAttempt]
      ++ (if s then [GenKind.rawOutputSaved] else [])
      ++ (if o.persistFails then [GenKind.warnPersistSkip]
          else [GenKind.artifactPersisted])

/-- Events one task contributes to the trace, tagged with its index. -/
def taskEvents (m s : Bool) (idx : Nat) (o : TaskOutcome) : List GenEvent :=
  (taskKinds m s o).map (fun k => ⟨k, idx⟩)

/-- Trace of the whole loop when every task body completes, as the
concatenation of the per-task traces, indices increasing from `idx`. -/
def tasksEvents (m s : Bool) : Nat → List TaskOutcome → List GenEvent
  | _, [] => []
  | idx, o :: rest => taskEvents m s idx o ++ tasksEvents m s (idx + 1) rest

/-! ## Definitions: tensor-parallel compatibility check and DeepSpeed
config merge (ab/gpt/infer/DPGenerator.py, ab/gpt/util/DeepSpeedManager.py) -/

/-- Truthiness-guarded divisibility test used twice by
`_tp_compat_or_raise`: Python `if v and (v % mp_size != 0)` where `v` is
`None` or an integer — `None` and `0` are falsy, so the branch fires
exactly when the attribute is present, non-zero, and not divisible. -/
def truthyNondiv (v : Option Nat) (mp : Nat) : Bool :=
  match v with
  | none => false
  | some h => decide (h ≠ 0) && decide (h % mp ≠ 0)

/-- Transcription of `_tp_compat_or_raise(cfg, mp_size)`: reads
`num_attention_heads` and `hidden_size` off the model config (absent
attribute modelled as `none`), raising when a present, non-zero value is
not divisible by `mp_size`; the surrounding `try/except: raise` re-raises
unchanged and is the identity. `DPGenerator._worker` runs this check
before constructing the sharded inference engine. -/
def tp_compat_or_raise (num_attention_heads hidden_size : Option Nat)
    (mp_size : Nat) : Except String Unit :=
  if truthyNondiv num_attention_heads mp_size then
    Except.error "Tensor-parallel mp_size must divide num_attention_heads."
  else if truthyNondiv hidden_size mp_size then
    Except.error "Tensor-parallel mp_size should divide hidden_size."
  else
    Except.ok ()

/-- Dynamic override source of the DeepSpeed config merge: the
`TrainingArguments`-like object. `none` in the first two fields models an
absent attribute (`hasattr` false); `fp16 = none` models an absent `fp16`
attribute and `bf16 = none` an absent `bf16` attribute (read through
`getattr(training_args, "bf16", False)`). -/
structure TrainingArgs where
  per_device_train_batch_size : Option Int
  gradient_accumulation_steps : Option Int
  fp16 : Option Bool
  bf16 : Option Bool
deriving Repr, DecidableEq

/-- Static DeepSpeed runtime configuration restricted to the keys the merge
touches: `train_micro_batch_size_per_gpu`, `gradient_accumulation_steps`,
the `enabled` value of the `fp16` dict, the `enabled` value of the `bf16`
dict (`none` models a key absent from the JSON), and the remaining static
entries, which the merge never touches. -/
structure DsConfig where
  train_micro_batch_size_per_gpu : Option Int
  gradient_accumulation_steps : Option Int
  fp16_enabled : Option Bool
  bf16_enabled : Option Bool
  static_rest : List (String × Int)
deriving Repr, DecidableEq

/-- Transcription of `patch_runtime_from_training_args(ds_cfg, training_args)`:
batch size and gradient-accumulation steps are overwritten from the
training-arguments object when the attribute is present; precision uses
`setdefault` — `fp16` requested inserts an enabled-True entry only when the
static config has no `fp16` key, else (`elif`) `bf16` requested does the
same for `bf16`. -/
def patch_runtime_from_training_args (cfg : DsConfig) (ta : TrainingArgs) :
    DsConfig :=
  let c1 :=
    match ta.per_device_train_batch_size with
    | some b => { cfg with train_micro_batch_size_per_gpu := some b }
    | none => cfg
  let c2 :=
    match ta.gradient_accumulation_steps with
    | some g => { c1 with gradient_accumulation_steps := some g }
    | none => c1
  if ta.fp16 = some true then
    { c2 with fp16_enabled := some (c2.fp16_enabled.getD true) }
  else if ta.bf16.getD false then
    { c2 with bf16_enabled := some (c2.bf16_enabled.getD true) }
  else
    c2

/-! ## Theorems -/

/-- C1: `DistEnv.init` is idempotent. Whatever environment, clock reading,
broadcast value and seed argument the second call sees, the state after two
calls equals the state after one call, because the first call leaves
`_inited = True` and a call on an initialized state returns immediately
without mutating any field (rank, local_rank, world_size, seed,
initialized). -/
theorem C1_init_idempotent (s : DistEnvState) (env env' : Env)
    (t t' : Nat) (b b' : Int) (sd sd' : Option Int) :
    DistEnv.init (DistEnv.init s env t b sd) env' t' b' sd' =
      DistEnv.init s env t b sd := by
  unfold DistEnv.init
  by_cases h : s.inited <;> simp [h]

/-- C2: in an `N`-rank job with `N > 1` and no caller-supplied seed, every
rank applies the seed `base + rank` for the single base value broadcast
from rank 0, so the applied seeds form the sequence
`base, base + 1, ..., base + N - 1` and no two ranks share a seed. -/
theorem C2_seed_sequence (N : Nat) (times : Nat → Nat) (hN : 1 < N) :
    (∀ r, r < N → (rankStateAfterInit N r times).appliedSeed
        = some ((baseOf (times 0) : Int) + (r : Int))) ∧
    (∀ r r', r < N → r' < N → r ≠ r' →
      (rankStateAfterInit N r times).appliedSeed
        ≠ (rankStateAfterInit N r' times).appliedSeed) := by
  have hseed : ∀ r, (rankStateAfterInit N r times).appliedSeed
      = some ((baseOf (times 0) : Int) + (r : Int)) := by
    intro r
    simp [rankStateAfterInit, DistEnv.init, freshState, envFor, set_seed, hN]
  refine ⟨fun r _ => hseed r, fun r r' _ _ hne => ?_⟩
  rw [hseed r, hseed r']
  simp only [ne_eq, Option.some.injEq]
  omega

/-- Witness for C2 in a 3-rank job with every wall clock reading 100. -/
theorem C2_seed_sequence_witness :
    1 < 3 ∧
    (rankStateAfterInit 3 1 (fun _ => 100)).appliedSeed
      = some ((baseOf 100 : Int) + 1) ∧
    (rankStateAfterInit 3 1 (fun _ => 100)).appliedSeed
      ≠ (rankStateAfterInit 3 2 (fun _ => 100)).appliedSeed := by
  have h := C2_seed_sequence 3 (fun _ => 100) (by decide)
  refine ⟨by decide, by simpa using h.1 1 (by decide), ?_⟩
  exact h.2 1 2 (by decide) (by decide) (by decide)

/-- C4: `DistEnv.destroy` always leaves `initialized = false`, whether or
not the internal barrier raises; and when a communication group exists it
attempts the barrier, swallows a barrier failure, and tears the group down
unconditionally. -/
theorem C4_destroy_always_uninitialized (s : DistEnvState) (barrierFails : Bool) :
    (DistEnv.destroy s barrierFails).1.inited = false ∧
    (DistEnv.destroy s barrierFails).1.groupInitialized = false ∧
    (s.groupInitialized = true →
      DestroyEvent.barrierAttempt ∈ (DistEnv.destroy s barrierFails).2 ∧
      DestroyEvent.groupDestroyed ∈ (DistEnv.destroy s barrierFails).2 ∧
      (barrierFails = true →
        DestroyEvent.barrierFailureSwallowed ∈ (DistEnv.destroy s barrierFails).2)) := by
  unfold DistEnv.destroy
  by_cases hg : s.groupInitialized <;> by_cases hb : barrierFails <;>
    simp [hg, hb]

/-- Witness for C4 at a concrete state with a live group and a failing
barrier. -/
theorem C4_destroy_always_uninitialized_witness :
    (DistEnv.destroy { freshState with groupInitialized := true, inited := true } true).1.inited = false ∧
    (DistEnv.destroy { freshState with groupInitialized := true, inited := true } true).1.groupInitialized = false ∧
    DestroyEvent.barrierAttempt ∈ (DistEnv.destroy { freshState with groupInitialized := true, inited := true } true).2 ∧
    DestroyEvent.groupDestroyed ∈ (DistEnv.destroy { freshState with groupInitialized := true, inited := true } true).2 ∧
    DestroyEvent.barrierFailureSwallowed ∈ (DistEnv.destroy { freshState with groupInitialized := true, inited := true } true).2 := by
  have h := C4_destroy_always_uninitialized
    { freshState with groupInitialized := true, inited := true } true
  exact ⟨h.1, h.2.1, (h.2.2 rfl).1, (h.2.2 rfl).2.1, (h.2.2 rfl).2.2 rfl⟩

/-- C6: identity resolution is a total function (it never raises): a
missing rank signal defaults to 0, a missing local-rank signal defaults to
0, a missing world-size signal defaults to 1; `DistEnv.init` adopts exactly
the resolved identity; and under consistent external signals the resolved
identity satisfies `rank < world_size`. -/
theorem C6_identity_defaults_and_bound (env : Env) :
    (env.RANK = none → (resolveIdentity env).rank = 0) ∧
    (env.LOCAL_RANK = none → (resolveIdentity env).local_rank = 0) ∧
    (env.WORLD_SIZE = none → (resolveIdentity env).world_size = 1) ∧
    (∀ t b sd,
      (DistEnv.init freshState env t b sd).rank = (resolveIdentity env).rank ∧
      (DistEnv.init freshState env t b sd).local_rank = (resolveIdentity env).local_rank ∧
      (DistEnv.init freshState env t b sd).world_size = (resolveIdentity env).world_size) ∧
    (consistentSignals env →
      (resolveIdentity env).rank < (resolveIdentity env).world_size) := by
  refine ⟨fun h => by simp [resolveIdentity, h],
          fun h => by simp [resolveIdentity, h],
          fun h => by simp [resolveIdentity, h],
          fun t b sd => ?_,
          fun h => h⟩
  refine ⟨?_, ?_, ?_⟩ <;> simp [DistEnv.init, freshState, resolveIdentity]

/-- Witness for C6 on the empty environment (no launch signals at all). -/
theorem C6_identity_defaults_and_bound_witness :
    (resolveIdentity ⟨none, none, none, none, none⟩).rank = 0 ∧
    (resolveIdentity ⟨none, none, none, none, none⟩).local_rank = 0 ∧
    (resolveIdentity ⟨none, none, none, none, none⟩).world_size = 1 ∧
    (resolveIdentity ⟨none, none, none, none, none⟩).rank <
      (resolveIdentity ⟨none, none, none, none, none⟩).world_size := by
  have h := C6_identity_defaults_and_bound ⟨none, none, none, none, none⟩
  exact ⟨h.1 rfl, h.2.1 rfl, h.2.2.1 rfl, h.2.2.2.2 (by decide)⟩

/-- C7: with no external launch signal present, `spawn_if_needed` spawns
exactly `processCount` workers, where `processCount` defaults to the
accelerator device count with a minimum of 1; worker `i` receives synthetic
`RANK = LOCAL_RANK = i` and `WORLD_SIZE = processCount`, and the master
endpoint defaults to `127.0.0.1:29500` only when none is already set. -/
theorem C7_local_spawn (env : Env) (dc : Nat)
    (hR : env.RANK = none) (hW : env.WORLD_SIZE = none) (hL : env.LOCAL_RANK = none) :
    ∃ workers, spawn_if_needed env none dc = SpawnResult.spawned workers ∧
      workers.length = (if dc = 0 then 1 else dc) ∧
      1 ≤ workers.length ∧
      ∀ i, i < workers.length →
        workers[i]? = some (i,
          { RANK := some i, LOCAL_RANK := some i,
            WORLD_SIZE := some (if dc = 0 then 1 else dc),
            MASTER_ADDR := some (env.MASTER_ADDR.getD "127.0.0.1"),
            MASTER_PORT := some (env.MASTER_PORT.getD "29500") }) := by
  refine ⟨(List.range (if dc = 0 then 1 else dc)).map
      (fun i => (i, spawn_entry_env env i (if dc = 0 then 1 else dc))), ?_, ?_, ?_, ?_⟩
  · simp [spawn_if_needed, hR, hW, hL]
  · simp
  · simp only [List.length_map, List.length_range]
    split_ifs <;> omega
  · intro i hi
    simp only [List.length_map, List.length_range] at hi
    simp [List.getElem?_map, List.getElem?_range, hi, spawn_entry_env]

/-- Witness for C7: empty environment, zero accelerator devices — exactly
one worker is spawned with rank 0 and world size 1. -/
theorem C7_local_spawn_witness :
    ∃ workers, spawn_if_needed ⟨none, none, none, none, none⟩ none 0 = SpawnResult.spawned workers ∧
      workers.length = (if (0 : Nat) = 0 then 1 else 0) ∧
      1 ≤ workers.length ∧
      ∀ i, i < workers.length →
        workers[i]? = some (i,
          { RANK := some i, LOCAL_RANK := some i,
            WORLD_SIZE := some (if (0 : Nat) = 0 then 1 else 0),
            MASTER_ADDR := some ((none : Option String).getD "127.0.0.1"),
            MASTER_PORT := some ((none : Option String).getD "29500") }) :=
  C7_local_spawn ⟨none, none, none, none, none⟩ 0 rfl rfl rfl

/-- C8 counterexample: with `world_size = 1` and caller-supplied seed 42,
the seed applied on rank 0 after `init()` is NOT 43: `set_seed` computes
`seed + rank = 42 + 0 = 42`. -/
theorem C8_counterexample_seed_not_43 :
    (DistEnv.init freshState envSingle 1000 0 (some 42)).appliedSeed ≠ some 43 := by
  decide

/-- Helper: a task body whose unguarded raw-output write does not fail
completes without an uncaught exception and contributes exactly
`taskEvents`. -/
theorem processTask_guarded (m s : Bool) (idx : Nat) (o : TaskOutcome)
    (h : s = true → m = true → o.saveOutFails = false) :
    processTask m s idx o = Except.ok (taskEvents m s idx o) := by
  obtain ⟨cp, hpp, sof, pf⟩ := o
  cases m <;> cases s <;> cases cp <;> cases hpp <;> cases sof <;> cases pf <;>
    simp_all [processTask, taskEvents, taskKinds, persistTail]

/-- Helper: the loop over tasks whose raw-output writes do not fail
completes with the concatenated per-task traces. -/
theorem runTasks_guarded (m s : Bool) (os : List TaskOutcome) :
    ∀ i, (∀ o ∈ os, s = true → m = true → o.saveOutFails = false) →
      runTasks m s i os = Except.ok (tasksEvents m s i os) := by
  induction os with
  | nil => intro i _; rfl
  | cons o rest ih =>
    intro i h
    simp only [runTasks, processTask_guarded m s i o (h o (by simp)),
      ih (i + 1) (fun o' ho' => h o' (by simp [ho'])), tasksEvents]

/-- Helper: every event a task contributes carries the index of that
task. -/
theorem taskEvents_idx (m s : Bool) (idx : Nat) (o : TaskOutcome) :
    ∀ e ∈ taskEvents m s idx o, e.idx = idx := by
  intro e he
  simp only [taskEvents, List.mem_map] at he
  obtain ⟨k, -, rfl⟩ := he
  rfl

/-- Helper: events of the loop tail starting at index `i` carry indices at
least `i`. -/
theorem tasksEvents_idx_lb (m s : Bool) (os : List TaskOutcome) :
    ∀ i, ∀ e ∈ tasksEvents m s i os, i ≤ e.idx := by
  induction os with
  | nil => intro i e he; simp [tasksEvents] at he
  | cons o rest ih =>
    intro i e he
    simp only [tasksEvents, List.mem_append] at he
    rcases he with h | h
    · exact le_of_eq (taskEvents_idx m s i o e h).symm
    · exact Nat.le_of_succ_le (ih (i + 1) e h)

/-- Helper: an event tagged `i + k` occurs in the loop trace exactly when
it occurs in the trace of the task at position `k`. -/
theorem tasksEvents_mem_seg (m s : Bool) (os : List TaskOutcome) :
    ∀ i k o, os[k]? = some o → ∀ e : GenEvent, e.idx = i + k →
      (e ∈ tasksEvents m s i os ↔ e ∈ taskEvents m s (i + k) o) := by
  induction os with
  | nil => intro i k o hk; simp at hk
  | cons o0 rest ih =>
    intro i k o hk e he
    cases k with
    | zero =>
      have ho : o0 = o := by simpa using hk
      subst ho
      simp only [tasksEvents, List.mem_append]
      constructor
      · rintro (h | h)
        · exact h
        · exfalso
          have hlb := tasksEvents_idx_lb m s rest (i + 1) e h
          omega
      · intro h
        exact Or.inl h
    | succ r =>
      have hk' : rest[r]? = some o := by simpa using hk
      have he' : e.idx = (i + 1) + r := by omega
      have heq : i + (r + 1) = (i + 1) + r := by omega
      rw [heq]
      simp only [tasksEvents, List.mem_append]
      rw [ih (i + 1) r o hk' e he']
      constructor
      · rintro (h | h)
        · exfalso
          have := taskEvents_idx m s i o0 e h
          omega
        · exact h
      · intro h
        exact Or.inr h

/-- Helper: `model.generate` is part of every task trace on every rank. -/
theorem processTask_ok_generate (m s : Bool) (idx : Nat) (o : TaskOutcome)
    (evs : List GenEvent) (h : processTask m s idx o = Except.ok evs) :
    (⟨GenKind.generate, idx⟩ : GenEvent) ∈ evs := by
  simp only [processTask] at h
  split_ifs at h <;> injection h with h <;> subst h <;> simp [persistTail]

/-- Helper: when the loop completes, every task index below the task count
has its `model.generate` call in the trace. -/
theorem runTasks_ok_generate (m s : Bool) (os : List TaskOutcome) :
    ∀ i evs, runTasks m s i os = Except.ok evs →
      ∀ k, k < os.length → (⟨GenKind.generate, i + k⟩ : GenEvent) ∈ evs := by
  induction os with
  | nil => intro i evs _ k hk; simp at hk
  | cons o rest ih =>
    intro i evs h k hk
    simp only [runTasks] at h
    cases hp : processTask m s i o with
    | error e => rw [hp] at h; simp at h
    | ok evs0 =>
      rw [hp] at h
      cases hr : runTasks m s (i + 1) rest with
      | error e => rw [hr] at h; simp at h
      | ok evs1 =>
        rw [hr] at h
        simp at h
        subst h
        cases k with
        | zero =>
          exact List.mem_append_left _ (processTask_ok_generate m s i o evs0 hp)
        | succ r =>
          have hmem := ih (i + 1) evs1 hr r (by simpa using hk)
          have hidx : i + (r + 1) = (i + 1) + r := by omega
          rw [hidx]
          exact List.mem_append_right _ hmem

/-- Helper: a non-designated rank emits nothing but `model.generate`
calls — no decode, no parse, no persistence. -/
theorem tasksEvents_kind_notMain (s : Bool) (os : List TaskOutcome) :
    ∀ i, ∀ e ∈ tasksEvents false s i os, e.kind = GenKind.generate := by
  induction os with
  | nil => intro i e he; simp [tasksEvents] at he
  | cons o rest ih =>
    intro i e he
    simp only [tasksEvents, List.mem_append] at he
    rcases he with h | h
    · have hrfl : taskEvents false s i o = [⟨GenKind.generate, i⟩] := rfl
      rw [hrfl] at h
      simp at h
      rw [h]
    · exact ih (i + 1) e h

/-- C3: every rank, designated or not, reaches the compute step
(`model.generate`) for every task index — in any completed loop trace the
generate event of every index is present, and a non-designated rank always
completes its loop — while decode, parse, and persistence events occur
only on the designated rank: the trace of a non-designated rank consists of
generate events alone. -/
theorem C3_compute_on_all_ranks_io_on_main (m s : Bool) (outcomes : List TaskOutcome) :
    (∀ evs, workerLoop m s outcomes = Except.ok evs →
      ∀ idx, idx < outcomes.length → (⟨GenKind.generate, idx⟩ : GenEvent) ∈ evs) ∧
    (m = false →
      ∃ evs, workerLoop m s outcomes = Except.ok evs ∧
        (∀ idx, idx < outcomes.length → (⟨GenKind.generate, idx⟩ : GenEvent) ∈ evs) ∧
        ∀ e ∈ evs, e.kind = GenKind.generate) := by
  constructor
  · intro evs h idx hidx
    have := runTasks_ok_generate m s outcomes 0 evs h idx hidx
    simpa using this
  · rintro rfl
    have hguard : ∀ o ∈ outcomes, s = true → (false : Bool) = true → o.saveOutFails = false :=
      fun o _ _ hm => absurd hm (by simp)
    refine ⟨tasksEvents false s 0 outcomes, runTasks_guarded false s outcomes 0 hguard, ?_, ?_⟩
    · intro idx hidx
      have := runTasks_ok_generate false s outcomes 0 (tasksEvents false s 0 outcomes)
        (runTasks_guarded false s outcomes 0 hguard) idx hidx
      simpa using this
    · exact tasksEvents_kind_notMain s outcomes 0

/-- Witness for C3: a non-designated rank processing one parseable task
calls generate and emits nothing but generate events. -/
theorem C3_compute_on_all_ranks_io_on_main_witness :
    (⟨GenKind.generate, 0⟩ : GenEvent) ∈ [(⟨GenKind.generate, 0⟩ : GenEvent)] ∧
    (∃ evs, workerLoop false true [⟨true, true, false, false⟩] = Except.ok evs ∧
      (∀ idx, idx < [(⟨true, true, false, false⟩ : TaskOutcome)].length →
        (⟨GenKind.generate, idx⟩ : GenEvent) ∈ evs) ∧
      ∀ e ∈ evs, e.kind = GenKind.generate) := by
  have h := C3_compute_on_all_ranks_io_on_main false true [⟨true, true, false, false⟩]
  exact ⟨h.1 [⟨GenKind.generate, 0⟩] rfl 0 (by decide), h.2 rfl⟩

/-- C5 counterexample: with `save_llm_output` enabled on the designated
rank, an I/O failure of the raw-output write — which sits before the try
block — escapes the loop as an uncaught exception, so the second task is
never executed. This refutes the claim that every persistence failure is
caught per-task and that no exception escapes the loop. -/
theorem C5_counterexample_uncaught_raw_output_failure :
    workerLoop true true
        [⟨true, true, true, false⟩, ⟨true, true, false, false⟩]
      = Except.error "uncaught exception while writing raw LLM output" := by
  rfl

/-- C5 (amended): on the designated rank, a task whose raw output parses
into neither code nor hyperparameters is skipped with a logged warning and
no artifact file or directory for its index, and a failure inside the
guarded persistence block (malformed hyperparameter text, artifact-write
I/O error) is caught per-task and logged; provided the optional raw-LLM-
output write (performed before the guard when `save_llm_output` is
enabled) does not fail, no exception escapes the loop and every task still
reaches the compute step. -/
theorem C5_amended_per_task_recovery (m s : Bool) (outcomes : List TaskOutcome)
    (hguard : ∀ o ∈ outcomes, s = true → m = true → o.saveOutFails = false) :
    ∃ evs, workerLoop m s outcomes = Except.ok evs ∧
      (∀ idx, idx < outcomes.length → (⟨GenKind.generate, idx⟩ : GenEvent) ∈ evs) ∧
      (∀ idx o, outcomes[idx]? = some o → m = true →
        (o.codeParsed && o.hpParsed) = false →
          (⟨GenKind.warnParseSkip, idx⟩ : GenEvent) ∈ evs ∧
          (⟨GenKind.rawOutputSaved, idx⟩ : GenEvent) ∉ evs ∧
          (⟨GenKind.artifactPersisted, idx⟩ : GenEvent) ∉ evs ∧
          (⟨GenKind.warnPersistSkip, idx⟩ : GenEvent) ∉ evs) ∧
      (∀ idx o, outcomes[idx]? = some o → m = true →
        (o.codeParsed && o.hpParsed) = true → o.persistFails = true →
          (⟨GenKind.warnPersistSkip, idx⟩ : GenEvent) ∈ evs ∧
          (⟨GenKind.artifactPersisted, idx⟩ : GenEvent) ∉ evs) := by
  refine ⟨tasksEvents m s 0 outcomes, runTasks_guarded m s outcomes 0 hguard, ?_, ?_, ?_⟩
  · intro idx hidx
    have := runTasks_ok_generate m s outcomes 0 (tasksEvents m s 0 outcomes)
      (runTasks_guarded m s outcomes 0 hguard) idx hidx
    simpa using this
  · intro idx o hidx hm hparse
    subst hm
    have hz : idx = 0 + idx := (Nat.zero_add idx).symm
    refine ⟨?_, ?_, ?_, ?_⟩ <;>
      [rw [tasksEvents_mem_seg true s outcomes 0 idx o hidx ⟨GenKind.warnParseSkip, idx⟩ hz];
       rw [tasksEvents_mem_seg true s outcomes 0 idx o hidx ⟨GenKind.rawOutputSaved, idx⟩ hz];
       rw [tasksEvents_mem_seg true s outcomes 0 idx o hidx ⟨GenKind.artifactPersisted, idx⟩ hz];
       rw [tasksEvents_mem_seg true s outcomes 0 idx o hidx ⟨GenKind.warnPersistSkip, idx⟩ hz]] <;>
      simp [taskEvents, taskKinds, hparse]
  · intro idx o hidx hm hparse hpf
    subst hm
    have hz : idx = 0 + idx := (Nat.zero_add idx).symm
    constructor
    · rw [tasksEvents_mem_seg true s outcomes 0 idx o hidx ⟨GenKind.warnPersistSkip, idx⟩ hz]
      cases s <;> simp [taskEvents, taskKinds, hparse, hpf]
    · rw [tasksEvents_mem_seg true s outcomes 0 idx o hidx ⟨GenKind.artifactPersisted, idx⟩ hz]
      cases s <;> simp [taskEvents, taskKinds, hparse, hpf]

/-- Witness for C5 (amended): designated rank, raw-output saving disabled,
first task fails to parse, second task parses but its persistence step
raises. -/
theorem C5_amended_per_task_recovery_witness :
    ∃ evs, workerLoop true false
        [⟨false, true, false, false⟩, ⟨true, true, false, true⟩] = Except.ok evs ∧
      (∀ idx, idx < [(⟨false, true, false, false⟩ : TaskOutcome),
          ⟨true, true, false, true⟩].length →
        (⟨GenKind.generate, idx⟩ : GenEvent) ∈ evs) ∧
      (∀ idx o, [(⟨false, true, false, false⟩ : TaskOutcome),
          ⟨true, true, false, true⟩][idx]? = some o → (true : Bool) = true →
        (o.codeParsed && o.hpParsed) = false →
          (⟨GenKind.warnParseSkip, idx⟩ : GenEvent) ∈ evs ∧
          (⟨GenKind.rawOutputSaved, idx⟩ : GenEvent) ∉ evs ∧
          (⟨GenKind.artifactPersisted, idx⟩ : GenEvent) ∉ evs ∧
          (⟨GenKind.warnPersistSkip, idx⟩ : GenEvent) ∉ evs) ∧
      (∀ idx o, [(⟨false, true, false, false⟩ : TaskOutcome),
          ⟨true, true, false, true⟩][idx]? = some o → (true : Bool) = true →
        (o.codeParsed && o.hpParsed) = true → o.persistFails = true →
          (⟨GenKind.warnPersistSkip, idx⟩ : GenEvent) ∈ evs ∧
          (⟨GenKind.artifactPersisted, idx⟩ : GenEvent) ∉ evs) :=
  C5_amended_per_task_recovery true false
    [⟨false, true, false, false⟩, ⟨true, true, false, true⟩] (by decide)

/-- C9: the DeepSpeed config merge takes the per-device batch size and the
gradient-accumulation step count from the training-arguments object when
those attributes are present, keeps the static value when they are absent,
and sets the mixed-precision mode preferring fp16 when requested and else
bf16 when requested (each via setdefault, so a static entry survives);
entries the dynamic source says nothing about are unchanged. -/
theorem C9_config_merge (cfg : DsConfig) (ta : TrainingArgs) :
    (∀ b, ta.per_device_train_batch_size = some b →
      (patch_runtime_from_training_args cfg ta).train_micro_batch_size_per_gpu = some b) ∧
    (ta.per_device_train_batch_size = none →
      (patch_runtime_from_training_args cfg ta).train_micro_batch_size_per_gpu
        = cfg.train_micro_batch_size_per_gpu) ∧
    (∀ g, ta.gradient_accumulation_steps = some g →
      (patch_runtime_from_training_args cfg ta).gradient_accumulation_steps = some g) ∧
    (ta.gradient_accumulation_steps = none →
      (patch_runtime_from_training_args cfg ta).gradient_accumulation_steps
        = cfg.gradient_accumulation_steps) ∧
    (ta.fp16 = some true →
      (patch_runtime_from_training_args cfg ta).fp16_enabled
        = some (cfg.fp16_enabled.getD true) ∧
      (patch_runtime_from_training_args cfg ta).bf16_enabled = cfg.bf16_enabled) ∧
    (ta.fp16 ≠ some true → ta.bf16.getD false = true →
      (patch_runtime_from_training_args cfg ta).bf16_enabled
        = some (cfg.bf16_enabled.getD true) ∧
      (patch_runtime_from_training_args cfg ta).fp16_enabled = cfg.fp16_enabled) ∧
    (ta.fp16 ≠ some true → ta.bf16.getD false = false →
      (patch_runtime_from_training_args cfg ta).fp16_enabled = cfg.fp16_enabled ∧
      (patch_runtime_from_training_args cfg ta).bf16_enabled = cfg.bf16_enabled) ∧
    (patch_runtime_from_training_args cfg ta).static_rest = cfg.static_rest := by
  obtain ⟨pd, ga, f16, b16⟩ := ta
  rcases pd with _ | b <;> rcases ga with _ | g <;>
    rcases f16 with _ | f <;> rcases b16 with _ | bb <;>
    (try cases f) <;> (try cases bb) <;>
    simp [patch_runtime_from_training_args]

/-- Witness for C9: static config with batch size 8, accumulation 2, no
fp16 entry and a disabled bf16 entry; training arguments with batch size
4, no accumulation attribute, fp16 and bf16 both requested. -/
theorem C9_config_merge_witness :
    (patch_runtime_from_training_args
        ⟨some 8, some 2, none, some false, [("zero_stage", 3)]⟩
        ⟨some 4, none, some true, some true⟩).train_micro_batch_size_per_gpu = some 4 ∧
    (patch_runtime_from_training_args
        ⟨some 8, some 2, none, some false, [("zero_stage", 3)]⟩
        ⟨some 4, none, some true, some true⟩).gradient_accumulation_steps = some 2 ∧
    (patch_runtime_from_training_args
        ⟨some 8, some 2, none, some false, [("zero_stage", 3)]⟩
        ⟨some 4, none, some true, some true⟩).fp16_enabled = some true ∧
    (patch_runtime_from_training_args
        ⟨some 8, some 2, none, some false, [("zero_stage", 3)]⟩
        ⟨some 4, none, some true, some true⟩).bf16_enabled = some false ∧
    (patch_runtime_from_training_args
        ⟨some 8, some 2, none, some false, [("zero_stage", 3)]⟩
        ⟨some 4, none, some true, some true⟩).static_rest = [("zero_stage", 3)] := by
  have h := C9_config_merge
    ⟨some 8, some 2, none, some false, [("zero_stage", 3)]⟩
    ⟨some 4, none, some true, some true⟩
  exact ⟨h.1 4 rfl, h.2.2.2.1 rfl, (h.2.2.2.2.1 rfl).1, (h.2.2.2.2.1 rfl).2,
    h.2.2.2.2.2.2.2⟩

/-- Helper: divisibility as remainder-vanishing, for every modulus
including zero (`h % 0 = h` and `0 ∣ h ↔ h = 0`). -/
theorem mod_eq_zero_iff_dvd_all (mp h : Nat) : h % mp = 0 ↔ mp ∣ h :=
  Nat.dvd_iff_mod_eq_zero.symm

/-- Helper: the truthiness-guarded branch condition of
`_tp_compat_or_raise` fires exactly on a present, non-divisible attribute
value (a present zero is divisible by everything, matching its falsiness
in Python). -/
theorem truthyNondiv_iff (v : Option Nat) (mp : Nat) :
    truthyNondiv v mp = true ↔ ∃ h, v = some h ∧ ¬ (mp ∣ h) := by
  cases v with
  | none => simp [truthyNondiv]
  | some h =>
    constructor
    · intro ht
      simp only [truthyNondiv, Bool.and_eq_true, decide_eq_true_eq] at ht
      exact ⟨h, rfl, fun hdvd => ht.2 ((mod_eq_zero_iff_dvd_all mp h).mpr hdvd)⟩
    · rintro ⟨h', hh, hmod⟩
      obtain rfl := Option.some.inj hh
      simp only [truthyNondiv, Bool.and_eq_true, decide_eq_true_eq]
      have hmod' : h % mp ≠ 0 :=
        fun hz => hmod ((mod_eq_zero_iff_dvd_all mp h).mp hz)
      exact ⟨fun h0 => hmod' (by simp [h0]), hmod'⟩

/-- C10: the tensor-parallel compatibility check run by the generation
worker before constructing the sharded inference engine raises exactly
when the model config has `num_attention_heads` present and not divisible
by the world size, or `hidden_size` present and not divisible by the world
size; with both attributes absent or divisible it returns without
raising. -/
theorem C10_tp_compat_check (heads hidden : Option Nat) (mp : Nat) :
    (∃ e, tp_compat_or_raise heads hidden mp = Except.error e) ↔
      ((∃ h, heads = some h ∧ ¬ (mp ∣ h)) ∨
       (∃ d, hidden = some d ∧ ¬ (mp ∣ d))) := by
  rw [← truthyNondiv_iff heads mp, ← truthyNondiv_iff hidden mp]
  unfold tp_compat_or_raise
  cases hh : truthyNondiv heads mp <;> cases hd : truthyNondiv hidden mp <;>
    simp [hh, hd]

/-- C8 (amended): with `world_size = 1` and caller-supplied seed 42, the
effective seed applied on rank 0 after `init()` is exactly 42
(`derived seed = base_seed + rank = 42 + 0`), for any wall-clock reading
and broadcast buffer content (both are ignored when a seed is supplied). -/
theorem C8_amended_seed_is_42 (time0 : Nat) (bcastRecv : Int) :
    (DistEnv.init freshState envSingle time0 bcastRecv (some 42)).appliedSeed = some 42 := by
  rfl

end NNGpt
